import Mathlib

/-!
Shallow embedding of winit's key/modifier data model (`src/keyboard.rs`) and
of the AppKit dispatch-interception layer (`src/platform_impl/apple/appkit/app.rs`),
together with proofs of the specified properties.
-/

namespace Winit

/-! ## Key/modifier data model (`src/keyboard.rs`) -/

/-- `KeyCode` (re-exported `keyboard_types::Code`): a closed enumeration of
standardized physical-key positions. The Rust type comes from the external
`keyboard_types` crate; we embed a representative subset of its variants.
None of the conversions in `src/keyboard.rs` inspect individual variants,
so the proofs below are uniform in the variant set. -/
inductive KeyCode where
  | Unidentified
  | KeyA
  | KeyB
  | Digit1
  | Enter
  | Escape
  | Backspace
  | Tab
  | Space
  | F20
  | ShiftLeft
  | MetaRight
  deriving DecidableEq, Repr

/-- `NamedKey` (re-exported `keyboard_types::NamedKey`): closed enumeration of
non-printable / action keys. Representative subset; `Key.to_text` only
distinguishes `Enter`, `Backspace`, `Tab` and `Escape` from the rest. -/
inductive NamedKey where
  | Enter
  | Backspace
  | Tab
  | Escape
  | Shift
  | Control
  | Alt
  | Meta
  | F20
  | ArrowLeft
  | MediaPlay
  deriving DecidableEq, Repr

/-- `NativeKeyCode`: per-platform raw physical-key identifier
(`src/keyboard.rs` lines 86-96). Rust's `u32`/`u16` payloads are embedded as
`Nat` (their values are opaque identifiers; no arithmetic is performed). -/
inductive NativeKeyCode where
  | Unidentified
  | Android (code : Nat)
  | MacOS (code : Nat)
  | Windows (code : Nat)
  | Xkb (code : Nat)
  deriving DecidableEq, Repr

/-- `NativeKey`: per-platform raw logical-key identifier
(`src/keyboard.rs` lines 139-152); same shape as `NativeKeyCode` plus the
textual `Web` variant (`SmolStr` embedded as `String`). -/
inductive NativeKey where
  | Unidentified
  | Android (code : Nat)
  | MacOS (code : Nat)
  | Windows (code : Nat)
  | Xkb (code : Nat)
  | Web (code : String)
  deriving DecidableEq, Repr

/-- `impl From<NativeKeyCode> for NativeKey` (`src/keyboard.rs` lines 187-198). -/
def NativeKey.fromCode : NativeKeyCode → NativeKey
  | NativeKeyCode.Unidentified => NativeKey.Unidentified
  | NativeKeyCode.Android x => NativeKey.Android x
  | NativeKeyCode.MacOS x => NativeKey.MacOS x
  | NativeKeyCode.Windows x => NativeKey.Windows x
  | NativeKeyCode.Xkb x => NativeKey.Xkb x

/-- `impl PartialEq<NativeKey> for NativeKeyCode` (`src/keyboard.rs` lines 200-206):
`NativeKey::from(*self) == *rhs`. -/
def NativeKeyCode.eqNativeKey (c : NativeKeyCode) (rhs : NativeKey) : Bool :=
  NativeKey.fromCode c == rhs

/-- `impl PartialEq<NativeKeyCode> for NativeKey` (`src/keyboard.rs` lines 208-213):
delegates to the mirror implementation, `rhs == self`. -/
def NativeKey.eqNativeKeyCode (nk : NativeKey) (rhs : NativeKeyCode) : Bool :=
  NativeKeyCode.eqNativeKey rhs nk

/-- `PhysicalKey` (`src/keyboard.rs` lines 221-230). -/
inductive PhysicalKey where
  | Code (code : KeyCode)
  | Unidentified (code : NativeKeyCode)
  deriving DecidableEq, Repr

/-- `impl From<KeyCode> for PhysicalKey` (`src/keyboard.rs` lines 232-237). -/
def PhysicalKey.fromKeyCode (code : KeyCode) : PhysicalKey :=
  PhysicalKey.Code code

/-- `impl From<PhysicalKey> for KeyCode` (`src/keyboard.rs` lines 239-247). -/
def KeyCode.fromPhysicalKey : PhysicalKey → KeyCode
  | PhysicalKey.Code code => code
  | PhysicalKey.Unidentified _ => KeyCode.Unidentified

/-- `Key` (`src/keyboard.rs` lines 302-322), at its default text type
(`SmolStr`, embedded as `String`). -/
inductive Key where
  | Named (action : NamedKey)
  | Character (s : String)
  | Unidentified (code : NativeKey)
  | Dead (c : Option Char)
  deriving DecidableEq, Repr

/-- `Key::to_text` (`src/keyboard.rs` lines 412-424). -/
def Key.to_text : Key → Option String
  | Key.Named action =>
    match action with
    | NamedKey.Enter => some "\r"
    | NamedKey.Backspace => some "\x08"
    | NamedKey.Tab => some "\t"
    | NamedKey.Escape => some "\x1b"
    | _ => none
  | Key.Character ch => some ch
  | _ => none

/-- Modelled from the spec (§3, C7): the expected `to_text` behavior written
directly from the spec's enumeration, for comparison with `Key.to_text`:
`Some("\r")` for `Named(Enter)`, the backspace control char for
`Named(Backspace)`, tab for `Named(Tab)`, escape for `Named(Escape)`,
`Some(s)` for `Character(s)`, and `None` for every other value. -/
def toTextSpec (k : Key) : Option String :=
  if k = Key.Named NamedKey.Enter then some "\r"
  else if k = Key.Named NamedKey.Backspace then some "\x08"
  else if k = Key.Named NamedKey.Tab then some "\t"
  else if k = Key.Named NamedKey.Escape then some "\x1b"
  else
    match k with
    | Key.Character s => some s
    | _ => none

/-- `ModifiersState` (`src/keyboard.rs` lines 506-522): a `bitflags` set over a
`u32`, embedded as its backing bit pattern. -/
structure ModifiersState where
  bits : Nat
  deriving DecidableEq, Repr

/-- `ModifiersState::SHIFT = 0b100`. -/
def ModifiersState.SHIFT : ModifiersState := ⟨0b100⟩

/-- `ModifiersState::CONTROL = 0b100 << 3`. -/
def ModifiersState.CONTROL : ModifiersState := ⟨0b100 <<< 3⟩

/-- `ModifiersState::ALT = 0b100 << 6`. -/
def ModifiersState.ALT : ModifiersState := ⟨0b100 <<< 6⟩

/-- `ModifiersState::META = 0b100 << 9`. -/
def ModifiersState.META : ModifiersState := ⟨0b100 <<< 9⟩

/-- `bitflags`' `Default` for `ModifiersState`: the empty set. -/
def ModifiersState.default : ModifiersState := ⟨0⟩

/-- `bitflags`' `intersects`: true when the two sets share any bit. -/
def ModifiersState.intersects (a b : ModifiersState) : Bool :=
  a.bits &&& b.bits ≠ 0

/-- `ModifiersState::shift_key` (`src/keyboard.rs` lines 526-528). -/
def ModifiersState.shift_key (s : ModifiersState) : Bool :=
  s.intersects ModifiersState.SHIFT

/-- `ModifiersState::control_key` (`src/keyboard.rs` lines 531-533). -/
def ModifiersState.control_key (s : ModifiersState) : Bool :=
  s.intersects ModifiersState.CONTROL

/-- `ModifiersState::alt_key` (`src/keyboard.rs` lines 536-538). -/
def ModifiersState.alt_key (s : ModifiersState) : Bool :=
  s.intersects ModifiersState.ALT

/-- `ModifiersState::super_key` (`src/keyboard.rs` lines 541-543). -/
def ModifiersState.super_key (s : ModifiersState) : Bool :=
  s.intersects ModifiersState.META

/-! ## Dispatch interception (`src/platform_impl/apple/appkit/app.rs`) -/

/-- The subset of `NSEventType` that `send_event` / `maybe_dispatch_device_event`
distinguish; every other native type tag falls under `other`. -/
inductive NSEventType where
  | keyUp
  | mouseMoved
  | leftMouseDragged
  | otherMouseDragged
  | rightMouseDragged
  | leftMouseDown
  | rightMouseDown
  | otherMouseDown
  | leftMouseUp
  | rightMouseUp
  | otherMouseUp
  | other
  deriving DecidableEq, Repr

/-- `NSEventModifierFlagCommand`: bit 20 of the `NSEventModifierFlags` mask. -/
def NSEventModifierFlagCommand : Nat := 1 <<< 20

/-- `NSEventModifierFlags::contains` on the embedded `NSUInteger` bitmask:
every bit of `flag` is present in `flags`. -/
def flagsContain (flags flag : Nat) : Bool :=
  flags &&& flag = flag

/-- Read-only view of an `NSEvent`: the accessors the interceptor consults.
`deltaX`/`deltaY` are CoreGraphics floats; they are embedded as rationals,
which preserves the classifier's exact zero tests. `buttonNumber` is embedded
as the `u32` the code casts it to. -/
structure NSEvent where
  type : NSEventType
  modifierFlags : Nat
  deltaX : ℚ
  deltaY : ℚ
  buttonNumber : Nat
  deriving DecidableEq, Repr

/-- `ElementState` (`src/event.rs`, used by `app.rs`). -/
inductive ElementState where
  | Pressed
  | Released
  deriving DecidableEq, Repr

/-- The `DeviceEvent` shapes synthesized by `maybe_dispatch_device_event`. -/
inductive DeviceEvent where
  | PointerMotion (delta : ℚ × ℚ)
  | Button (button : Nat) (state : ElementState)
  deriving DecidableEq, Repr

/-- `maybe_dispatch_device_event` (`app.rs` lines 114-153), with the enqueue
side effect reified as the list of device events queued for this event. -/
def maybe_dispatch_device_event (event : NSEvent) : List DeviceEvent :=
  match event.type with
  | NSEventType.mouseMoved
  | NSEventType.leftMouseDragged
  | NSEventType.otherMouseDragged
  | NSEventType.rightMouseDragged =>
    if event.deltaX ≠ 0 ∨ event.deltaY ≠ 0 then
      [DeviceEvent.PointerMotion (event.deltaX, event.deltaY)]
    else
      []
  | NSEventType.leftMouseDown
  | NSEventType.rightMouseDown
  | NSEventType.otherMouseDown =>
    [DeviceEvent.Button event.buttonNumber ElementState.Pressed]
  | NSEventType.leftMouseUp
  | NSEventType.rightMouseUp
  | NSEventType.otherMouseUp =>
    [DeviceEvent.Button event.buttonNumber ElementState.Released]
  | _ => []

/-- A handler function pointer (an `Imp` / `extern "C" fn` address), opaque in
the embedding: only identity comparison is ever performed on it. -/
abbrev Handler := Nat

/-- The observable effects of one run of the `send_event` wrapper
(`app.rs` lines 33-61): which window (by id) received the event via
`key_window.sendEvent(event)`, which device events were queued on the
app state, whether the stored original handler was invoked, and whether the
wrapper panicked (`.expect("no existing sendEvent: handler set")`). -/
structure SendEffects where
  keyWindowEvents : List Nat
  queuedDeviceEvents : List DeviceEvent
  originalCalled : Bool
  panicked : Bool
  deriving DecidableEq, Repr

/-- `send_event` (`app.rs` lines 33-61). Inputs beyond the event itself:
`keyWindow` is `app.keyWindow()` (the id of the focused window, if any) and
`original` is the current content of the `ORIGINAL` slot. -/
def send_event (keyWindow : Option Nat) (original : Option Handler)
    (event : NSEvent) : SendEffects :=
  if event.type = NSEventType.keyUp ∧
      flagsContain event.modifierFlags NSEventModifierFlagCommand = true then
    match keyWindow with
    | some w =>
      { keyWindowEvents := [w], queuedDeviceEvents := [],
        originalCalled := false, panicked := false }
    | none =>
      { keyWindowEvents := [], queuedDeviceEvents := [],
        originalCalled := false, panicked := false }
  else
    let queued := maybe_dispatch_device_event event
    match original with
    | some _ =>
      { keyWindowEvents := [], queuedDeviceEvents := queued,
        originalCalled := true, panicked := false }
    | none =>
      { keyWindowEvents := [], queuedDeviceEvents := queued,
        originalCalled := false, panicked := true }

/-- The interception state that `override_send_event` reads and writes:
the `sendEvent:` implementation pointer currently installed on the
application class, and the process-wide `ORIGINAL` slot. -/
structure InterceptState where
  sendEventImpl : Handler
  original : Option Handler
  deriving DecidableEq, Repr

/-- `override_send_event` (`app.rs` lines 79-112). `wrapper` is the address of
the interceptor's own `send_event` wrapper (`overridden` in the source):
if the class's current implementation already equals it, return without
doing anything; otherwise swap the implementation for the wrapper and store
the displaced one in the `ORIGINAL` slot. -/
def override_send_event (wrapper : Handler) (st : InterceptState) :
    InterceptState :=
  if wrapper = st.sendEventImpl then
    st
  else
    { sendEventImpl := wrapper, original := some st.sendEventImpl }

/-! ## Theorems -/

/-- C1: calling the installation entry point (`override_send_event`) twice in
succession on the same target is observably equivalent to calling it once —
the second call is a no-op (detected by comparing the installed
implementation pointer against the wrapper's own address) and in particular
does not overwrite the stored original handler with the wrapper itself. -/
theorem C1_override_send_event_idempotent (wrapper : Handler)
    (st : InterceptState) :
    override_send_event wrapper (override_send_event wrapper st) =
      override_send_event wrapper st ∧
    (override_send_event wrapper (override_send_event wrapper st)).original =
      (override_send_event wrapper st).original := by
  unfold override_send_event
  by_cases h : wrapper = st.sendEventImpl <;> simp [h]

/-- C2: a key-release event carrying the command modifier flag, arriving while
a key (focused) window exists, is routed to that window's event path and
nothing else happens: no device event is queued, the original handler is not
invoked, and the wrapper does not panic. -/
theorem C2_meta_keyup_routed_to_key_window (original : Option Handler)
    (event : NSEvent) (w : Nat)
    (h1 : event.type = NSEventType.keyUp)
    (h2 : flagsContain event.modifierFlags NSEventModifierFlagCommand = true) :
    send_event (some w) original event =
      { keyWindowEvents := [w], queuedDeviceEvents := [],
        originalCalled := false, panicked := false } := by
  simp [send_event, h1, h2]

/-- C2 witness: a concrete command-flagged key-release event with key window 1
is delivered to window 1 only. -/
theorem C2_meta_keyup_routed_to_key_window_witness :
    (NSEvent.mk NSEventType.keyUp NSEventModifierFlagCommand 0 0 0).type =
      NSEventType.keyUp ∧
    flagsContain
      (NSEvent.mk NSEventType.keyUp NSEventModifierFlagCommand 0 0 0).modifierFlags
      NSEventModifierFlagCommand = true ∧
    send_event (some 1) (some 7)
      (NSEvent.mk NSEventType.keyUp NSEventModifierFlagCommand 0 0 0) =
      { keyWindowEvents := [1], queuedDeviceEvents := [],
        originalCalled := false, panicked := false } :=
  ⟨rfl, by decide,
    C2_meta_keyup_routed_to_key_window (some 7)
      (NSEvent.mk NSEventType.keyUp NSEventModifierFlagCommand 0 0 0) 1 rfl
      (by decide)⟩

/-- C3: for every pointer-motion-type event reaching the wrapper with an
original handler stored, a `PointerMotion` device event with the event's
deltas is queued iff at least one delta component is non-zero, and the event
is in either case still forwarded to the stored original handler. -/
theorem C3_pointer_motion_classification (keyWindow : Option Nat)
    (h : Handler) (event : NSEvent)
    (hty : event.type = NSEventType.mouseMoved ∨
      event.type = NSEventType.leftMouseDragged ∨
      event.type = NSEventType.otherMouseDragged ∨
      event.type = NSEventType.rightMouseDragged) :
    ((send_event keyWindow (some h) event).queuedDeviceEvents =
      if event.deltaX ≠ 0 ∨ event.deltaY ≠ 0 then
        [DeviceEvent.PointerMotion (event.deltaX, event.deltaY)]
      else []) ∧
    (DeviceEvent.PointerMotion (event.deltaX, event.deltaY) ∈
        (send_event keyWindow (some h) event).queuedDeviceEvents ↔
      (event.deltaX ≠ 0 ∨ event.deltaY ≠ 0)) ∧
    (send_event keyWindow (some h) event).originalCalled = true ∧
    (send_event keyWindow (some h) event).panicked = false := by
  have hne : ¬(event.type = NSEventType.keyUp ∧
      flagsContain event.modifierFlags NSEventModifierFlagCommand = true) := by
    rcases hty with h' | h' | h' | h' <;> simp [h']
  rcases hty with h' | h' | h' | h' <;>
    simp only [send_event, maybe_dispatch_device_event, hne, if_neg, h'] <;>
    by_cases hd : event.deltaX ≠ 0 ∨ event.deltaY ≠ 0 <;>
    simp [hd]

/-- C3 witness: a concrete mouse-moved event with delta `(7/2, -1)` queues
exactly one `PointerMotion` event and still calls the original handler. -/
theorem C3_pointer_motion_classification_witness :
    ((NSEvent.mk NSEventType.mouseMoved 0 (7/2) (-1) 0).type =
        NSEventType.mouseMoved ∨
      (NSEvent.mk NSEventType.mouseMoved 0 (7/2) (-1) 0).type =
        NSEventType.leftMouseDragged ∨
      (NSEvent.mk NSEventType.mouseMoved 0 (7/2) (-1) 0).type =
        NSEventType.otherMouseDragged ∨
      (NSEvent.mk NSEventType.mouseMoved 0 (7/2) (-1) 0).type =
        NSEventType.rightMouseDragged) ∧
    ((send_event none (some 3)
        (NSEvent.mk NSEventType.mouseMoved 0 (7/2) (-1) 0)).queuedDeviceEvents =
      [DeviceEvent.PointerMotion (7/2, -1)] ∧
    (send_event none (some 3)
        (NSEvent.mk NSEventType.mouseMoved 0 (7/2) (-1) 0)).originalCalled =
      true) := by
  refine ⟨Or.inl rfl, ?_, ?_⟩
  · have := (C3_pointer_motion_classification none 3
      (NSEvent.mk NSEventType.mouseMoved 0 (7/2) (-1) 0) (Or.inl rfl)).1
    rw [this]
    norm_num
  · exact (C3_pointer_motion_classification none 3
      (NSEvent.mk NSEventType.mouseMoved 0 (7/2) (-1) 0) (Or.inl rfl)).2.2.1

/-- C4: when an event not hit by the meta key-up short-circuit reaches the
forwarding step with no original handler ever stored, the wrapper panics
(it does not invoke any handler and does not silently succeed). -/
theorem C4_missing_original_panics (keyWindow : Option Nat) (event : NSEvent)
    (h : ¬(event.type = NSEventType.keyUp ∧
      flagsContain event.modifierFlags NSEventModifierFlagCommand = true)) :
    (send_event keyWindow none event).panicked = true ∧
    (send_event keyWindow none event).originalCalled = false := by
  simp [send_event, h]

/-- C4 witness: a concrete unclassified event with no stored handler panics. -/
theorem C4_missing_original_panics_witness :
    ¬((NSEvent.mk NSEventType.other 0 0 0 0).type = NSEventType.keyUp ∧
      flagsContain (NSEvent.mk NSEventType.other 0 0 0 0).modifierFlags
        NSEventModifierFlagCommand = true) ∧
    (send_event none none (NSEvent.mk NSEventType.other 0 0 0 0)).panicked =
      true :=
  ⟨by decide,
    (C4_missing_original_panics none (NSEvent.mk NSEventType.other 0 0 0 0)
      (by decide)).1⟩

/-- C5: converting a `KeyCode` into a `PhysicalKey` always yields the `Code`
variant, and converting back recovers the same `KeyCode`. -/
theorem C5_keycode_roundtrip (code : KeyCode) :
    KeyCode.fromPhysicalKey (PhysicalKey.fromKeyCode code) = code ∧
    PhysicalKey.fromKeyCode code = PhysicalKey.Code code :=
  ⟨rfl, rfl⟩

/-- C6: cross-type equality between `NativeKeyCode` and `NativeKey` holds iff
the lossless widening of the code side equals the key side, and the two
directions of the comparison always agree. -/
theorem C6_cross_type_equality (c : NativeKeyCode) (nk : NativeKey) :
    (NativeKeyCode.eqNativeKey c nk = true ↔ NativeKey.fromCode c = nk) ∧
    NativeKeyCode.eqNativeKey c nk = NativeKey.eqNativeKeyCode nk c :=
  ⟨by simp [NativeKeyCode.eqNativeKey], rfl⟩

/-- C7: `Key::to_text` agrees everywhere with the fixed lookup the spec
describes (CR for Enter, BS for Backspace, TAB for Tab, ESC for Escape, the
payload for `Character`, and nothing for every other value). -/
theorem C7_to_text_total_lookup (k : Key) : Key.to_text k = toTextSpec k := by
  cases k with
  | Named action => cases action <;> rfl
  | Character s => rfl
  | Unidentified code => rfl
  | Dead c => rfl

/-- C8: the default `ModifiersState` is the empty set (all four queries are
false on it), and a state holding only the SHIFT bit answers true to
`shift_key` and false to the other three queries. -/
theorem C8_modifiers_state_queries :
    (ModifiersState.default.shift_key = false ∧
      ModifiersState.default.control_key = false ∧
      ModifiersState.default.alt_key = false ∧
      ModifiersState.default.super_key = false) ∧
    (ModifiersState.SHIFT.shift_key = true ∧
      ModifiersState.SHIFT.control_key = false ∧
      ModifiersState.SHIFT.alt_key = false ∧
      ModifiersState.SHIFT.super_key = false) := by
  decide

/-- C9: the widening from `NativeKeyCode` never produces the textual `Web`
variant, so the cross-type equality against `NativeKey::Web(s)` is false in
both directions, for every code and every string. -/
theorem C9_web_never_equals_code (c : NativeKeyCode) (s : String) :
    NativeKeyCode.eqNativeKey c (NativeKey.Web s) = false ∧
    NativeKey.eqNativeKeyCode (NativeKey.Web s) c = false := by
  cases c <;>
    simp [NativeKeyCode.eqNativeKey, NativeKey.eqNativeKeyCode,
      NativeKey.fromCode]

/-- C10: a command-flagged key-release event arriving while no key window
exists is dropped entirely: no window receives it, no device event is
queued, the original handler is not invoked, and the wrapper does not
panic. -/
theorem C10_meta_keyup_no_key_window_drops (original : Option Handler)
    (event : NSEvent)
    (h1 : event.type = NSEventType.keyUp)
    (h2 : flagsContain event.modifierFlags NSEventModifierFlagCommand = true) :
    send_event none original event =
      { keyWindowEvents := [], queuedDeviceEvents := [],
        originalCalled := false, panicked := false } := by
  simp [send_event, h1, h2]

/-- C10 witness: a concrete command-flagged key-release event with no key
window produces no observable effect at all. -/
theorem C10_meta_keyup_no_key_window_drops_witness :
    (NSEvent.mk NSEventType.keyUp NSEventModifierFlagCommand 0 0 0).type =
      NSEventType.keyUp ∧
    send_event none (some 7)
      (NSEvent.mk NSEventType.keyUp NSEventModifierFlagCommand 0 0 0) =
      { keyWindowEvents := [], queuedDeviceEvents := [],
        originalCalled := false, panicked := false } :=
  ⟨rfl,
    C10_meta_keyup_no_key_window_drops (some 7)
      (NSEvent.mk NSEventType.keyUp NSEventModifierFlagCommand 0 0 0) rfl
      (by decide)⟩

end Winit
